import Mathlib

/-!
Verification of the tap-tap-win live-price chart component.

The component (`src/unnamed/part_000`, with a close variant in
`src/src/app/page.tsx`) ingests a WebSocket tick stream into a buffer,
flushes the buffer into a growing series on a fixed cadence, preserves the
chart's pan/zoom view across updates, and lets the user place and remove
tiles by clicking on the chart.  The definitions below are a shallow
embedding of that code: JavaScript numbers are modelled as rationals,
`Date.now()` timestamps as rationals (or naturals where only identity
matters), callbacks as pure state-transition functions, and the event loop
as a fold of an event list over the state.
-/

/-- A chart data point, `interface PriceData { x: Date; y: number }`:
`x` is the sample's timestamp (milliseconds), `y` the price. -/
structure PriceData where
  x : ℚ
  y : ℚ
deriving DecidableEq, Repr

/-- A user-placed tile, `interface Tile { id, price, date, x, y }`. -/
structure Tile where
  id : String
  price : ℚ
  date : ℚ
  x : ℚ
  y : ℚ
deriving DecidableEq, Repr

/-- The connection-status state,
`useState<'connecting' | 'connected' | 'disconnected'>` (line 53 of
`part_000`): the code has exactly these three values. -/
inductive ConnStatus where
  | connecting
  | connected
  | disconnected
deriving DecidableEq, Repr, Fintype

/-- The three control paths of the `ws.onmessage` handler (lines 114-132):
`JSON.parse` throws (malformed frame), `parseFloat(data.p)` yields `NaN`,
or a finite price is obtained. -/
inductive RawMsg where
  | malformed
  | nanPrice
  | price (p : ℚ)
deriving DecidableEq, Repr

/-- The value `chart.scales.·.getValueForPixel` can hand back in
JavaScript: `undefined`, `NaN`, or an ordinary number. -/
inductive JSNum where
  | undef
  | nan
  | num (q : ℚ)
deriving DecidableEq, Repr

/-- JavaScript truthiness of such a value: `undefined` and `NaN` are
falsy, a number is truthy exactly when it is nonzero. -/
def JSNum.truthy : JSNum → Bool
  | .undef => false
  | .nan => false
  | .num q => q ≠ 0

/-- The check `typeof v === 'number'`: true for `NaN` as well, false only for
`undefined`. -/
def JSNum.isNumber : JSNum → Bool
  | .undef => false
  | _ => true

/-- The numeric value of a truthy number (total with a junk value on the
non-number constructors, which are never reached under `truthy`). -/
def JSNum.val : JSNum → ℚ
  | .num q => q
  | _ => 0

/-! ## The tick buffer (`priceBufferRef`)

`push` is `priceBufferRef.current.push(newDataPoint)` (line 126);
`drain` is the pair of lines
`const buffer = [...priceBufferRef.current]; priceBufferRef.current = []`
(lines 154-155): it returns the whole contents and leaves the buffer
empty. -/

/-- Append one tick to the buffer. -/
def bufferPush (b : List PriceData) (t : PriceData) : List PriceData :=
  b ++ [t]

/-- Atomically take the contents and clear the buffer. -/
def bufferDrain (b : List PriceData) : List PriceData × List PriceData :=
  (b, [])

/-- Push each tick of `ts` in order. -/
def bufferPushAll (b : List PriceData) (ts : List PriceData) : List PriceData :=
  ts.foldl bufferPush b

theorem bufferPushAll_append (b : List PriceData) (ts : List PriceData) :
    bufferPushAll b ts = b ++ ts := by
  induction ts generalizing b with
  | nil => simp [bufferPushAll]
  | cons t ts ih =>
      simp [bufferPushAll, bufferPush] at *
      simpa using ih (b ++ [t])

/-- C2: for every sequence of pushes into the tick buffer followed by one
drain, the drained sequence equals the pushed sequence in the same order,
and a second drain performed before any further push returns the empty
sequence. -/
theorem tickBuffer_drain_roundtrip (ts : List PriceData) :
    (bufferDrain (bufferPushAll [] ts)).1 = ts ∧
    (bufferDrain ((bufferDrain (bufferPushAll [] ts)).2)).1 = [] := by
  constructor
  · simp [bufferDrain, bufferPushAll_append]
  · simp [bufferDrain]

/-! ## The connection manager (`connectWebSocket`, lines 98-148, and the
`useEffect` cleanup, lines 292-300)

State carried by the component: the reported status, whether the socket's
`readyState` is `OPEN`, the pending reconnection `setTimeout` (as its due
time in milliseconds), and a count of connection attempts (socket
creations).  Each WebSocket callback and each timer firing is one event;
the event loop is a left fold. -/

/-- The fixed reconnection delay, `setTimeout(connectWebSocket, 3000)`
(line 146).  Times are integer milliseconds, as `Date.now()` returns. -/
def RECONNECT_DELAY : ℕ := 3000

structure CM where
  status : ConnStatus
  wsOpen : Bool
  timerDue : Option ℕ
  attempts : ℕ
deriving DecidableEq, Repr

/-- Function `connectWebSocket` (lines 98-107): returns immediately when the
current socket is `OPEN`, otherwise sets the status to `connecting` and
creates a new socket (counted in `attempts`).  The new socket is not yet
open; `onopen` is a separate event. -/
def connectWebSocket (st : CM) : CM :=
  if st.wsOpen then st
  else { st with status := .connecting, attempts := st.attempts + 1 }

/-- Events delivered to the component, each tagged with the wall-clock
time at which it runs where that matters. -/
inductive CEv where
  | open_
  | error
  | close (t : ℕ)
  | fire (t : ℕ)
  | cleanup
deriving DecidableEq, Repr

/-- One step of the connection event loop.

* `open_` — `ws.onopen` (lines 109-112): status `connected`.
* `error` — `ws.onerror` (lines 134-137): status `disconnected`; it
  schedules nothing.
* `close t` — `ws.onclose` (lines 139-147): status `disconnected` and,
  unconditionally, `reconnectTimeoutRef.current = setTimeout(connectWebSocket, 3000)`;
  there is no cleanup flag guarding this.
* `fire t` — the reconnection timeout firing at its due time: it clears
  itself and calls `connectWebSocket`.
* `cleanup` — the `useEffect` cleanup (lines 292-300), the component's
  shutdown: `wsRef.current.close()` (which puts the socket into a closing
  state; the resulting `close` event is delivered later, as a later event
  in the trace) and `clearTimeout(reconnectTimeoutRef.current)`. -/
def stepC (st : CM) : CEv → CM
  | .open_ => { st with status := .connected, wsOpen := true }
  | .error => { st with status := .disconnected }
  | .close t =>
      { st with status := .disconnected, wsOpen := false,
                timerDue := some (t + RECONNECT_DELAY) }
  | .fire t =>
      if st.timerDue = some t then connectWebSocket { st with timerDue := none }
      else st
  | .cleanup => { st with wsOpen := false, timerDue := none }

/-- Run a trace of events. -/
def runCM (st : CM) (evs : List CEv) : CM :=
  evs.foldl stepC st

/-- The state right after mount: `connectionStatus` starts as
`'connecting'` (line 53) and the mount effect (line 287) calls
`connectWebSocket` once. -/
def mountCM : CM :=
  connectWebSocket { status := .connecting, wsOpen := false,
                     timerDue := none, attempts := 0 }

/-- C1: the code violates the shutdown half of the claim.  Trace: the
socket opens; the component shuts down (cleanup clears the — absent —
timer and calls `ws.close()`); the socket's queued `close` event is then
delivered at `t = 10`; it schedules a reconnection for `t = 3010`, which
fires.  One full reconnection attempt is made after shutdown, because
`ws.onclose` has no cleanup-flag guard. -/
theorem reconnect_attempt_after_shutdown :
    (runCM mountCM [.open_, .cleanup]).timerDue = none ∧
    (runCM mountCM [.open_, .cleanup, .close 10]).timerDue = some 3010 ∧
    (runCM mountCM [.open_, .cleanup, .close 10, .fire 3010]).attempts
      = (runCM mountCM [.open_, .cleanup]).attempts + 1 := by
  refine ⟨rfl, by decide, by decide⟩

/-- C6 counterexample: immediately after a `close` event the reconnection
timer is pending, yet the reported state is `disconnected` — and the
status type has only three values, so no `Reconnecting` state is ever
reported. -/
theorem no_reconnecting_state_while_timer_pending :
    (runCM mountCM [.open_, .close 5]).timerDue = some 3005 ∧
    (runCM mountCM [.open_, .close 5]).status = .disconnected ∧
    Fintype.card ConnStatus = 3 := by
  refine ⟨by decide, by decide, by decide⟩

/-- C6 amended: on a close or error event the state transitions to
`disconnected`, and it remains `disconnected` (with the timer still
pending) for as long as only further close events occur before the timer
fires; the status enum has exactly the three values `connecting`,
`connected`, `disconnected`. -/
theorem disconnected_while_timer_pending (st : CM) (t : ℕ) (evs : List CEv)
    (h : ∀ e ∈ evs, ∃ u, e = CEv.close u) :
    (stepC st .error).status = .disconnected ∧
    (runCM (stepC st (.close t)) evs).status = .disconnected ∧
    (runCM (stepC st (.close t)) evs).timerDue.isSome = true := by
  refine ⟨rfl, ?_⟩
  have key : ∀ (evs : List CEv) (s : CM),
      (∀ e ∈ evs, ∃ u, e = CEv.close u) →
      s.status = .disconnected → s.timerDue.isSome = true →
      (runCM s evs).status = .disconnected ∧ (runCM s evs).timerDue.isSome = true := by
    intro evs
    induction evs with
    | nil => intro s _ hs ht; exact ⟨hs, ht⟩
    | cons e evs ih =>
        intro s hall hs ht
        obtain ⟨u, rfl⟩ := hall e (List.mem_cons_self e evs)
        refine ih (stepC s (.close u)) (fun e he => hall e (List.mem_cons_of_mem _ he)) rfl rfl
  exact key evs (stepC st (.close t)) h rfl rfl

/-- Witness for the amended C6 theorem at a concrete trace. -/
theorem disconnected_while_timer_pending_witness :
    (runCM (stepC mountCM (.close 5)) [.close 7]).status = .disconnected := by
  exact (disconnected_while_timer_pending mountCM 5 [.close 7]
    (by intro e he; simp at he; exact ⟨7, he⟩)).2.1

/-! ## The buffered-render pipeline (`ws.onmessage` lines 114-132 and
`processBufferedData` lines 151-193)

The component's shared state: the connection status, the last price, the
tick buffer (`priceBufferRef`), the growing series (`priceData`), the
throttle timestamp (`lastUpdateTimeRef`), the chart's view scales
(`chartRef.current.scales`, absent before first paint), the interaction
flag (`isUserInteracting`), and the static initial time window computed at
mount (lines 58-64).  Cycle times are integer milliseconds (`Date.now()`);
natural-number truncated subtraction agrees with the JavaScript guard
because a nonnegative difference below the interval fails the `>=` test
either way. -/

/-- Constant `UPDATE_INTERVAL = 1000` (line 74). -/
def UPDATE_INTERVAL : ℕ := 1000

/-- The chart's current pan/zoom view: the x and y scale bounds. -/
structure ChartView where
  xmin : ℚ
  xmax : ℚ
  ymin : ℚ
  ymax : ℚ
deriving DecidableEq, Repr

structure AppState where
  status : ConnStatus
  currentPrice : ℚ
  buffer : List PriceData
  series : List PriceData
  lastUpdate : ℕ
  chart : Option ChartView
  interacting : Bool
  initMin : ℚ
  initMax : ℚ
deriving DecidableEq, Repr

/-- Handler `ws.onmessage` (lines 114-132): a malformed frame (JSON.parse throws)
or a NaN price is logged and dropped, leaving all state unchanged; a
valid price is appended to the buffer with the arrival time and becomes
the current price. -/
def onmessage (now : ℚ) (m : RawMsg) (st : AppState) : AppState :=
  match m with
  | .malformed => st
  | .nanPrice => st
  | .price p =>
      { st with buffer := st.buffer ++ [⟨now, p⟩], currentPrice := p }

/-- Modelled chart-library behavior of `chart.update('none')` (line 179):
scales are recomputed from the chart options — the x scale has the static
`min`/`max` of the initial time window (lines 527-528), the y scale has no
configured bounds and auto-fits the data. -/
def chartUpdate (initMin initMax : ℚ) (series : List PriceData) : ChartView :=
  { xmin := initMin, xmax := initMax,
    ymin := (series.map PriceData.y).foldr min 0,
    ymax := (series.map PriceData.y).foldr max 0 }

/-- Function `processBufferedData` (lines 151-193).  When the throttle interval has
elapsed and the buffer is nonempty: drain the buffer into the series;
then, only if a chart exists and the user is not interacting, save the
current scales, run `chart.update('none')`, and restore the saved x range
when it is truthy and differs from the initial window (lines 182-185) and
the saved y range when it is truthy (lines 186-188). -/
def processBufferedData (now : ℕ) (st : AppState) : AppState :=
  if UPDATE_INTERVAL ≤ now - st.lastUpdate ∧ st.buffer ≠ [] then
    let series' := st.series ++ st.buffer
    let chart' :=
      match st.chart with
      | none => none
      | some c =>
          if st.interacting then some c
          else
            let updated := chartUpdate st.initMin st.initMax series'
            let c1 :=
              if c.xmin ≠ 0 ∧ c.xmax ≠ 0 ∧ (c.xmin ≠ st.initMin ∨ c.xmax ≠ st.initMax)
              then { updated with xmin := c.xmin, xmax := c.xmax }
              else updated
            let c2 :=
              if c.ymin ≠ 0 ∧ c.ymax ≠ 0
              then { c1 with ymin := c.ymin, ymax := c.ymax }
              else c1
            some c2
    { st with series := series', buffer := [], lastUpdate := now, chart := chart' }
  else st

/-- Events of the pipeline: a WebSocket message arriving at time `now`,
or one firing of the `setInterval(processBufferedData, UPDATE_INTERVAL)`
scheduler (line 290) at time `now`. -/
inductive AEv where
  | msg (now : ℚ) (m : RawMsg)
  | cycle (now : ℕ)
deriving Repr

def stepA (st : AppState) : AEv → AppState
  | .msg now m => onmessage now m st
  | .cycle now => processBufferedData now st

def runA (st : AppState) (evs : List AEv) : AppState :=
  evs.foldl stepA st

/-- The ticks produced by the valid messages of a trace, in arrival
order. -/
def pushedTicks (evs : List AEv) : List PriceData :=
  evs.filterMap fun e =>
    match e with
    | .msg now (.price p) => some ⟨now, p⟩
    | _ => none

/-- The component's state at mount, given the initial time window: empty
buffer and series, no chart yet, not interacting. -/
def initA (initMin initMax : ℚ) : AppState :=
  { status := .connecting, currentPrice := 0, buffer := [], series := [],
    lastUpdate := 0, chart := none, interacting := false,
    initMin := initMin, initMax := initMax }

theorem stepA_series_buffer (st : AppState) (e : AEv) :
    (stepA st e).series ++ (stepA st e).buffer
      = st.series ++ st.buffer ++ pushedTicks [e] := by
  cases e with
  | msg now m =>
      cases m with
      | malformed => simp [stepA, onmessage, pushedTicks]
      | nanPrice => simp [stepA, onmessage, pushedTicks]
      | price p => simp [stepA, onmessage, pushedTicks]
  | cycle now =>
      simp only [stepA, processBufferedData, pushedTicks, List.filterMap]
      split
      · simp
      · simp

theorem pushedTicks_cons (e : AEv) (evs : List AEv) :
    pushedTicks (e :: evs) = pushedTicks [e] ++ pushedTicks evs := by
  cases e with
  | msg now m => cases m <;> simp [pushedTicks]
  | cycle now => simp [pushedTicks]

/-- C3: for every interleaving of tick arrivals and scheduler cycles, the
series and the buffer together hold the starting contents followed by
every pushed tick, in arrival order — no tick is lost, none is
duplicated; whenever the buffer has been fully drained, the series itself
is the starting contents followed by every pushed tick, so its length
grew by exactly the number of ticks pushed. -/
theorem seriesStore_merge_conservation (st : AppState) (evs : List AEv) :
    ((runA st evs).series ++ (runA st evs).buffer
      = st.series ++ st.buffer ++ pushedTicks evs) ∧
    ((runA st evs).buffer = [] →
      (runA st evs).series = st.series ++ st.buffer ++ pushedTicks evs) := by
  have main : ∀ (evs : List AEv) (st : AppState),
      (runA st evs).series ++ (runA st evs).buffer
        = st.series ++ st.buffer ++ pushedTicks evs := by
    intro evs
    induction evs with
    | nil => intro st; simp [runA, pushedTicks]
    | cons e evs ih =>
        intro st
        have h1 : runA st (e :: evs) = runA (stepA st e) evs := rfl
        rw [h1, ih (stepA st e), stepA_series_buffer st e, pushedTicks_cons e evs]
        simp [List.append_assoc]
  refine ⟨main evs st, fun hb => ?_⟩
  have := main evs st
  rw [hb] at this
  simpa using this

/-- Witness for C3: one valid message then one scheduler cycle past the
throttle interval; the buffer is drained and the series is exactly the
pushed tick. -/
theorem seriesStore_merge_conservation_witness :
    (runA (initA 0 90) [.msg 1 (.price 100), .cycle 2000]).series
      = (initA 0 90).series ++ (initA 0 90).buffer
          ++ pushedTicks [.msg 1 (.price 100), .cycle 2000] :=
  (seriesStore_merge_conservation (initA 0 90)
      [.msg 1 (.price 100), .cycle 2000]).2 rfl

/-- C4: while the interaction tracker reports busy, any number of
scheduler cycles (interleaved with any message arrivals) leaves the
chart's pan/zoom view unchanged: the whole view-manipulation block of
`processBufferedData` is guarded by `!isUserInteracting.current`. -/
theorem busy_cycles_preserve_view (st : AppState) (evs : List AEv)
    (h : st.interacting = true) :
    (runA st evs).chart = st.chart := by
  have main : ∀ (evs : List AEv) (st : AppState), st.interacting = true →
      (runA st evs).chart = st.chart ∧ (runA st evs).interacting = true := by
    intro evs
    induction evs with
    | nil => intro st h; exact ⟨rfl, h⟩
    | cons e evs ih =>
        intro st h
        have hstep : (stepA st e).chart = st.chart ∧ (stepA st e).interacting = true := by
          cases e with
          | msg now m => cases m <;> simp [stepA, onmessage, h]
          | cycle now =>
              simp only [stepA, processBufferedData]
              split
              · cases hc : st.chart <;> simp [h, hc]
              · exact ⟨rfl, h⟩
        have := ih (stepA st e) hstep.2
        exact ⟨by rw [show runA st (e :: evs) = runA (stepA st e) evs from rfl,
                      this.1, hstep.1], this.2⟩
  exact (main evs st h).1

/-- Witness for C4: a busy state with a panned chart runs a message and
two flush cycles; the view is unchanged. -/
theorem busy_cycles_preserve_view_witness :
    (runA { initA 0 90 with interacting := true,
                            chart := some ⟨100, 190, 50, 60⟩ }
        [.msg 1 (.price 100), .cycle 2000, .cycle 4000]).chart
      = some ⟨100, 190, 50, 60⟩ :=
  busy_cycles_preserve_view _ _ rfl

/-- C7: a message whose payload fails to parse into a valid tick — the
frame that makes `JSON.parse` throw, or a price that parses to NaN — is
dropped: the whole component state, in particular the connection status
and the tick buffer, is unchanged. -/
theorem malformed_message_dropped (st : AppState) (now : ℚ) (m : RawMsg)
    (h : m = .malformed ∨ m = .nanPrice) :
    onmessage now m st = st := by
  rcases h with h | h <;> subst h <;> rfl

/-- Witness for C7 at a concrete malformed frame. -/
theorem malformed_message_dropped_witness :
    onmessage 5 .malformed (initA 0 90) = initA 0 90 :=
  malformed_message_dropped (initA 0 90) 5 .malformed (Or.inl rfl)

/-! ## The spec's auto-scroll rule (absent from the code)

The spec prescribes an auto-scroll decision inside the scheduler cycle;
`processBufferedData` contains no such logic — when the user is not
interacting it restores the saved pan position (lines 170-188, "Position
persists", "No snap-back behavior").  The two definitions below follow
the spec's words, to be compared against the code's behavior. -/

/-- Modelled from the spec: the visible range's right edge lies within
the trailing threshold (the last 10%) of the data's logical span. -/
def specTrailingThreshold (dataStart dataEnd xmax : ℚ) : Prop :=
  dataEnd - xmax ≤ (dataEnd - dataStart) / 10

/-- Modelled from the spec: the view has been scrolled to "now" — the
visible range includes the data's logical end. -/
def specScrolledToNow (dataEnd xmax : ℚ) : Prop :=
  dataEnd ≤ xmax

/-- A concrete pipeline state for the auto-scroll counterexample: data
spanning times 0..200 (the newest tick, at 200, still in the buffer), the
view panned to x-range [100, 190], the user not interacting. -/
def c5State : AppState :=
  { initA 0 90 with status := .connected, currentPrice := 99,
                    buffer := [⟨200, 99⟩],
                    series := [⟨0, 100⟩, ⟨100, 101⟩],
                    chart := some ⟨100, 190, 50, 60⟩ }

/-- C5 counterexample: the tracker is idle and the view's right edge
(190) is within the last 10% of the data span [0, 200], yet the scheduler
cycle leaves the view at [100, 190] — it does not scroll to "now": the
newest data time 200 is still beyond the right edge. -/
theorem scheduler_never_scrolls_to_now :
    c5State.interacting = false ∧
    specTrailingThreshold 0 200 190 ∧
    ((processBufferedData 2000 c5State).series.map PriceData.x).getLast? = some 200 ∧
    (processBufferedData 2000 c5State).chart = some ⟨100, 190, 50, 60⟩ ∧
    ¬ specScrolledToNow 200 190 := by
  refine ⟨rfl, ?_, ?_, ?_, ?_⟩
  · show (200 : ℚ) - 190 ≤ (200 - 0) / 10
    norm_num
  · norm_num [processBufferedData, c5State, initA, UPDATE_INTERVAL, chartUpdate]
  · norm_num [processBufferedData, c5State, initA, UPDATE_INTERVAL, chartUpdate]
  · show ¬ (200 : ℚ) ≤ 190
    norm_num

/-- C5 amended: on a scheduler cycle where the tracker is not busy (and a
chart with truthy scale bounds exists), the cycle restores the view
window it saved before the chart update, leaving the view unchanged —
the scheduler never scrolls the view to "now", whatever the position of
the right edge relative to the data's end. -/
theorem notbusy_cycle_restores_view (st : AppState) (now : ℕ) (c : ChartView)
    (hc : st.chart = some c) (hb : st.interacting = false)
    (h1 : c.xmin ≠ 0) (h2 : c.xmax ≠ 0) (h3 : c.ymin ≠ 0) (h4 : c.ymax ≠ 0) :
    (processBufferedData now st).chart = some c := by
  obtain ⟨a, b, d, e⟩ := c
  simp only at h1 h2 h3 h4
  unfold processBufferedData
  split
  · simp only [hc, hb, Bool.false_eq_true, if_false]
    by_cases hx : a ≠ st.initMin ∨ b ≠ st.initMax
    · simp [h1, h2, h3, h4, hx]
    · push_neg at hx
      simp [h1, h2, h3, h4, hx.1, hx.2, chartUpdate]
  · exact hc

/-- Witness for the amended C5 theorem at the concrete counterexample
state. -/
theorem notbusy_cycle_restores_view_witness :
    (processBufferedData 2000 c5State).chart = some ⟨100, 190, 50, 60⟩ :=
  notbusy_cycle_restores_view c5State 2000 ⟨100, 190, 50, 60⟩ rfl rfl
    (by norm_num) (by norm_num) (by norm_num) (by norm_num)

/-! ## Tile ids: `Date.now().toString()` (lines 235 and 266)

JavaScript stringifies an integer timestamp as its decimal digits;
`natDigits`/`natToString` embed that conversion. -/

/-- The decimal digit string of `n`, most significant digit first. -/
def natDigits (n : ℕ) : List Char :=
  if n < 10 then [Nat.digitChar n]
  else natDigits (n / 10) ++ [Nat.digitChar (n % 10)]
decreasing_by
  exact Nat.div_lt_self (by omega) (by norm_num)

/-- JavaScript Number toString on an integer timestamp. -/
def natToString (n : ℕ) : String :=
  String.mk (natDigits n)

theorem natDigits_lt (n : ℕ) (h : n < 10) : natDigits n = [Nat.digitChar n] := by
  rw [natDigits]
  simp [h]

theorem natDigits_ge (n : ℕ) (h : ¬ n < 10) :
    natDigits n = natDigits (n / 10) ++ [Nat.digitChar (n % 10)] := by
  rw [natDigits]
  simp [h]

theorem natDigits_ne_nil (n : ℕ) : natDigits n ≠ [] := by
  by_cases h : n < 10
  · simp [natDigits_lt n h]
  · simp [natDigits_ge n h]

theorem digitChar_inj_lt (a b : ℕ) (ha : a < 10) (hb : b < 10)
    (h : Nat.digitChar a = Nat.digitChar b) : a = b := by
  interval_cases a <;> interval_cases b <;> first | rfl | exact absurd h (by decide)

theorem natDigits_inj (a : ℕ) : ∀ b : ℕ, natDigits a = natDigits b → a = b := by
  induction a using Nat.strong_induction_on with
  | _ a ih =>
      intro b h
      by_cases ha : a < 10 <;> by_cases hb : b < 10
      · rw [natDigits_lt a ha, natDigits_lt b hb] at h
        exact digitChar_inj_lt a b ha hb (List.singleton_injective h)
      · rw [natDigits_lt a ha, natDigits_ge b hb] at h
        have := congrArg List.length h
        simp at this
        exact absurd this (natDigits_ne_nil (b / 10))
      · rw [natDigits_ge a ha, natDigits_lt b hb] at h
        have := congrArg List.length h
        simp at this
        exact absurd this (natDigits_ne_nil (a / 10))
      · rw [natDigits_ge a ha, natDigits_ge b hb] at h
        have hlen : ([Nat.digitChar (a % 10)]).length = ([Nat.digitChar (b % 10)]).length := rfl
        obtain ⟨h1, h2⟩ := List.append_inj' h hlen
        have hdiv : a / 10 = b / 10 :=
          ih (a / 10) (Nat.div_lt_self (by omega) (by norm_num)) (b / 10) h1
        have hmod : a % 10 = b % 10 :=
          digitChar_inj_lt _ _ (Nat.mod_lt a (by norm_num)) (Nat.mod_lt b (by norm_num))
            (List.singleton_injective h2)
        omega

theorem natToString_injective : Function.Injective natToString := by
  intro a b h
  apply natDigits_inj
  have : (natToString a).data = (natToString b).data := by rw [h]
  simpa [natToString] using this

/-! ## Tile placement and removal (`handleChartClick` lines 196-252,
`addTestTile` lines 260-275, `removeTile` lines 255-257)

`handleChartClick` takes what the collaborating chart hands the handler:
whether a chart and a native event exist, the canvas position, and the
two `getValueForPixel` results.  `addTestTile` takes the `Math.random()`
draw as an argument. -/

/-- Function `handleChartClick`: bail out when chart or native event is missing;
create a tile only when `dataX && dataY && typeof dataX === 'number' &&
typeof dataY === 'number'` — JavaScript truthiness, so a coordinate that
maps to the number 0 is rejected. -/
def handleChartClick (hasChart hasNative : Bool) (px py : ℚ)
    (dataX dataY : JSNum) (now : ℕ) (tiles : List Tile) : List Tile :=
  if !hasChart || !hasNative then tiles
  else if dataX.truthy && dataY.truthy && dataX.isNumber && dataY.isNumber then
    tiles ++ [{ id := natToString now, price := dataY.val, date := dataX.val,
                x := px, y := py }]
  else tiles

/-- Function `addTestTile`: when a current price exists, append a tile 15 s in the
future at the current price plus a random offset (`rand` is the
`Math.random()` draw). -/
def addTestTile (now : ℕ) (rand : ℚ) (currentPrice : ℚ)
    (tiles : List Tile) : List Tile :=
  if 0 < currentPrice then
    tiles ++ [{ id := natToString now,
                price := currentPrice + (rand - 1/2) * 500,
                date := (now : ℚ) + 15000, x := 0, y := 0 }]
  else tiles

/-- Function `removeTile`: `prev.filter(tile => tile.id !== id)`. -/
def removeTile (i : String) (tiles : List Tile) : List Tile :=
  tiles.filter (fun t => t.id != i)

/-- The user-driven tile-store operations of one session. -/
inductive TileOp where
  | click (hasChart hasNative : Bool) (px py : ℚ) (dataX dataY : JSNum) (now : ℕ)
  | test (now : ℕ) (rand : ℚ) (price : ℚ)
  | remove (i : String)

def applyTileOp (tiles : List Tile) : TileOp → List Tile
  | .click hc hn px py dx dy now => handleChartClick hc hn px py dx dy now tiles
  | .test now r p => addTestTile now r p tiles
  | .remove i => removeTile i tiles

def runTiles (tiles : List Tile) (ops : List TileOp) : List Tile :=
  ops.foldl applyTileOp tiles

/-- The `Date.now()` value a tile-creating operation reads. -/
def opTime : TileOp → Option ℕ
  | .click _ _ _ _ _ _ now => some now
  | .test now _ _ => some now
  | .remove _ => none

/-- The id a tile-creating operation would generate. -/
def opGenId (op : TileOp) : Option String :=
  (opTime op).map natToString

/-- C8 counterexample: a chart click and a test-tile press in the same
millisecond (`Date.now() = 1000` for both) generate the same id "1000",
and both tiles enter the store: two tiles share an id. -/
theorem tile_id_collision_same_millisecond :
    ((runTiles [] [.click true true 10 20 (.num 5) (.num 7) 1000,
                   .test 1000 (1/2) 100]).map Tile.id)
      = [natToString 1000, natToString 1000] ∧
    ¬ ((runTiles [] [.click true true 10 20 (.num 5) (.num 7) 1000,
                     .test 1000 (1/2) 100]).map Tile.id).Nodup := by
  have hrun : (runTiles [] [.click true true 10 20 (.num 5) (.num 7) 1000,
                   .test 1000 (1/2) 100]).map Tile.id
      = [natToString 1000, natToString 1000] := by
    norm_num [runTiles, applyTileOp, handleChartClick, addTestTile,
              JSNum.truthy, JSNum.isNumber]
  refine ⟨hrun, ?_⟩
  rw [hrun]
  simp

theorem applyTileOp_ids_sublist (s : List Tile) (op : TileOp) (rest : List String) :
    ((applyTileOp s op).map Tile.id ++ rest).Sublist
      (s.map Tile.id ++ (Option.toList (opGenId op) ++ rest)) := by
  cases op with
  | click hc hn px py dx dy now =>
      simp only [applyTileOp, handleChartClick, opGenId, opTime, Option.map_some,
                 Option.toList_some]
      split
      · exact (List.Sublist.refl _).append
          (List.sublist_cons_self (natToString now) rest)
      · split
        · simp [natToString]
        · exact (List.Sublist.refl _).append
            (List.sublist_cons_self (natToString now) rest)
  | test now r p =>
      simp only [applyTileOp, addTestTile, opGenId, opTime, Option.map_some,
                 Option.toList_some]
      split
      · simp
      · exact (List.Sublist.refl _).append
          (List.sublist_cons_self (natToString now) rest)
  | remove i =>
      simp only [applyTileOp, removeTile, opGenId, opTime, Option.map_none,
                 Option.toList_none, List.nil_append]
      exact ((List.filter_sublist s).map Tile.id).append (List.Sublist.refl rest)

theorem runTiles_ids_sublist (ops : List TileOp) :
    ∀ s : List Tile, ((runTiles s ops).map Tile.id).Sublist
      (s.map Tile.id ++ ops.filterMap opGenId) := by
  induction ops with
  | nil => intro s; simp [runTiles]
  | cons op ops ih =>
      intro s
      have h1 : runTiles s (op :: ops) = runTiles (applyTileOp s op) ops := rfl
      have h2 := ih (applyTileOp s op)
      have h4 := applyTileOp_ids_sublist s op (ops.filterMap opGenId)
      have h5 : (op :: ops).filterMap opGenId
          = Option.toList (opGenId op) ++ ops.filterMap opGenId := by
        cases h : opGenId op <;> simp [List.filterMap_cons, h]
      rw [h1, h5]
      exact h2.trans h4

theorem filterMap_opGenId_eq (ops : List TileOp) :
    ops.filterMap opGenId = (ops.filterMap opTime).map natToString := by
  induction ops with
  | nil => rfl
  | cons op ops ih => cases op <;> simp [opGenId, opTime, ih]

/-- C8 amended: tile ids are pairwise distinct provided the creating
operations read pairwise-distinct `Date.now()` values; two creations in
the same millisecond produce the same clock-derived id (see the
counterexample), so sub-millisecond uniqueness is not guaranteed. -/
theorem tile_ids_nodup_of_distinct_times (ops : List TileOp)
    (h : (ops.filterMap opTime).Nodup) :
    ((runTiles [] ops).map Tile.id).Nodup := by
  have hnd : (ops.filterMap opGenId).Nodup := by
    rw [filterMap_opGenId_eq]
    exact h.map natToString_injective
  have hs := runTiles_ids_sublist ops []
  simp only [List.map_nil, List.nil_append] at hs
  exact hnd.sublist hs

/-- Witness for the amended C8 theorem: a click at `Date.now() = 1000`
and a test tile at `Date.now() = 2000` yield distinct ids. -/
theorem tile_ids_nodup_of_distinct_times_witness :
    ((runTiles [] [.click true true 10 20 (.num 5) (.num 7) 1000,
                   .test 2000 (1/2) 100]).map Tile.id).Nodup :=
  tile_ids_nodup_of_distinct_times
    [.click true true 10 20 (.num 5) (.num 7) 1000, .test 2000 (1/2) 100]
    (by decide)

/-- C9: `remove(id)` deletes exactly the tile whose id matches when one
is present — the remaining tiles keep their contents and insertion order
— and is a no-op (not an error) when no tile has that id. -/
theorem removeTile_deletes_exactly_matching (tiles : List Tile) (i : String) :
    ((∀ t ∈ tiles, t.id ≠ i) → removeTile i tiles = tiles) ∧
    (∀ pre t post, tiles = pre ++ t :: post → t.id = i →
      (∀ u ∈ pre, u.id ≠ i) → (∀ u ∈ post, u.id ≠ i) →
      removeTile i tiles = pre ++ post) := by
  constructor
  · intro h
    unfold removeTile
    apply List.filter_eq_self.mpr
    intro t ht
    simpa using h t ht
  · intro pre t post hsplit hid hpre hpost
    subst hsplit
    unfold removeTile
    rw [List.filter_append, List.filter_cons]
    have hpre2 : pre.filter (fun t => t.id != i) = pre :=
      List.filter_eq_self.mpr (fun u hu => by simpa using hpre u hu)
    have hpost2 : post.filter (fun t => t.id != i) = post :=
      List.filter_eq_self.mpr (fun u hu => by simpa using hpost u hu)
    simp [hid, hpre2, hpost2]

/-- Witness for C9: removing id "b" from a two-tile store deletes the
matching tile and keeps the other; the two branches of the theorem are
applied at concrete stores. -/
theorem removeTile_deletes_exactly_matching_witness :
    removeTile "b" [⟨"a", 1, 2, 3, 4⟩, ⟨"b", 5, 6, 7, 8⟩] = [⟨"a", 1, 2, 3, 4⟩] ∧
    removeTile "z" [⟨"a", 1, 2, 3, 4⟩] = [⟨"a", 1, 2, 3, 4⟩] := by
  constructor
  · exact (removeTile_deletes_exactly_matching
        [⟨"a", 1, 2, 3, 4⟩, ⟨"b", 5, 6, 7, 8⟩] "b").2
      [⟨"a", 1, 2, 3, 4⟩] ⟨"b", 5, 6, 7, 8⟩ [] rfl rfl
      (by intro u hu; simp at hu; subst hu; decide) (by intro u hu; simp at hu)
  · exact (removeTile_deletes_exactly_matching [⟨"a", 1, 2, 3, 4⟩] "z").1
      (by intro u hu; simp at hu; subst hu; decide)

/-- C10: a click whose pixel-to-domain mapping yields the number 0 on
either axis creates no tile (JavaScript truthiness rejects it although 0
is a valid domain value); a tile is created exactly when both mapped
coordinates are non-zero numbers, and then it carries those
coordinates. -/
theorem click_zero_coordinate_rejected (px py : ℚ) (now : ℕ)
    (tiles : List Tile) (dataX dataY : JSNum) :
    ((dataX = .num 0 ∨ dataY = .num 0) →
      handleChartClick true true px py dataX dataY now tiles = tiles) ∧
    (∀ qx qy, dataX = .num qx → qx ≠ 0 → dataY = .num qy → qy ≠ 0 →
      handleChartClick true true px py dataX dataY now tiles
        = tiles ++ [{ id := natToString now, price := qy, date := qx,
                      x := px, y := py }]) ∧
    (handleChartClick true true px py dataX dataY now tiles ≠ tiles →
      ∃ qx qy, dataX = .num qx ∧ qx ≠ 0 ∧ dataY = .num qy ∧ qy ≠ 0) := by
  refine ⟨?_, ?_, ?_⟩
  · rintro (rfl | rfl) <;>
      simp [handleChartClick, JSNum.truthy, JSNum.isNumber]
  · rintro qx qy rfl hqx rfl hqy
    simp [handleChartClick, JSNum.truthy, JSNum.isNumber, JSNum.val, hqx, hqy]
  · intro hne
    cases dataX with
    | undef => exact absurd (by simp [handleChartClick, JSNum.truthy]) hne
    | nan => exact absurd (by simp [handleChartClick, JSNum.truthy]) hne
    | num qx =>
        cases dataY with
        | undef => exact absurd (by simp [handleChartClick, JSNum.truthy]) hne
        | nan => exact absurd (by simp [handleChartClick, JSNum.truthy]) hne
        | num qy =>
            by_cases hqx : qx = 0
            · subst hqx
              exact absurd (by simp [handleChartClick, JSNum.truthy]) hne
            · by_cases hqy : qy = 0
              · subst hqy
                exact absurd (by simp [handleChartClick, JSNum.truthy]) hne
              · exact ⟨qx, qy, rfl, hqx, rfl, hqy⟩

/-- Witness for C10: a click mapping to time 0 creates no tile; a click
mapping to nonzero coordinates creates one. -/
theorem click_zero_coordinate_rejected_witness :
    handleChartClick true true 10 20 (.num 0) (.num 5) 1000 [] = [] ∧
    handleChartClick true true 10 20 (.num 7) (.num 5) 1000 []
      = [{ id := natToString 1000, price := 5, date := 7, x := 10, y := 20 }] := by
  constructor
  · exact (click_zero_coordinate_rejected 10 20 1000 [] (.num 0) (.num 5)).1
      (Or.inl rfl)
  · exact ((click_zero_coordinate_rejected 10 20 1000 [] (.num 7) (.num 5)).2.1
      7 5 rfl (by norm_num) rfl (by norm_num)).trans (by simp)
